import Mathlib

/-!
Shallow embedding of the zkchan-backend bridge service.

The repository contains three variants of the same Express service:
  * `src/server.js`            — the "A" variant (CommonJS, richer job record);
  * `src/src/server.js`        — the "B" variant (ESM);
  * `src/unnamed/part_000`     — behaviourally identical to the "B" variant
    (it differs from `src/src/server.js` only in comments and log text).

We embed the job data model, the `POST /bridge/submit`, `GET /bridge/job/:id`
and `POST /bridge/job/:id/execute` handlers of both variants, together with a
small model of the JavaScript values that can occur in a JSON-parsed request
body.  Library calls (`ethers.utils.parseUnits`, `wallet.sendTransaction`,
`tx.wait`) are modelled as an oracle (`EvmWorld`) giving the outcome of each
call of the single handler invocation under study; the repository's own
control flow around those calls is embedded faithfully.
-/

namespace ZkChan

/-- Job status, per the `jobs[jobId]` comment in every variant:
"pending" | "executing" | "completed" | "failed". -/
inductive Status
  | pending
  | executing
  | completed
  | failed
deriving DecidableEq, Repr

/-- The string used when a status is interpolated into a template literal. -/
def statusStr : Status → String
  | .pending => "pending"
  | .executing => "executing"
  | .completed => "completed"
  | .failed => "failed"

/-- JavaScript values as they occur in a JSON-parsed request body field.
`undefined` stands for an absent field (destructuring a missing key yields
`undefined`).  JSON cannot produce `NaN`, `Infinity` or `undefined` as stored
values, and nested objects/arrays are not needed by any handler branch we
embed, so finite numbers (as rationals), strings, booleans and `null` cover
the field values the handlers inspect. -/
inductive JsVal
  | undefined
  | null
  | bool (b : Bool)
  | num (q : ℚ)
  | str (s : String)
deriving DecidableEq, Repr

/-- Result of JavaScript numeric coercion: either NaN or a finite number. -/
inductive JsNumber
  | nan
  | fin (q : ℚ)
deriving DecidableEq, Repr

/-- JavaScript truthiness of a value. -/
def truthy : JsVal → Bool
  | .undefined => false
  | .null => false
  | .bool b => b
  | .num q => decide (q ≠ 0)
  | .str s => decide (s ≠ "")

/-- The value of `a || b` in JavaScript: `a` if truthy, else `b`. -/
def jsOr (a b : JsVal) : JsVal :=
  if truthy a then a else b

/-- Reading a field of a JSON body object: a missing key reads as
`undefined`, as in JavaScript destructuring. -/
def getField (body : List (String × JsVal)) (k : String) : JsVal :=
  (body.lookup k).getD .undefined

/-- JavaScript `String.prototype.trim`: strip leading and trailing
whitespace.  Defined structurally over the character list (rather than via
`String.trim`) so that concrete inputs evaluate by kernel reduction. -/
def jsTrim (s : String) : String :=
  String.mk (((s.data.dropWhile Char.isWhitespace).reverse.dropWhile
    Char.isWhitespace).reverse)

/-- Parse a list of decimal digit characters as a natural number
(`none` when empty or when a non-digit occurs). -/
def parseNatDigits (cs : List Char) : Option ℕ :=
  if cs = [] then none
  else if cs.all Char.isDigit then
    some (cs.foldl (fun acc c => acc * 10 + (c.toNat - 48)) 0)
  else none

/-- Split a character list at the first dot, if any. -/
def splitDot : List Char → List Char × Option (List Char)
  | [] => ([], none)
  | c :: rest =>
    if c = '.' then ([], some rest)
    else
      let p := splitDot rest
      (c :: p.1, p.2)

/-- JavaScript `Number(string)` coercion, restricted to plain decimal
literals with an optional sign and an optional fractional part (whitespace
is trimmed, the empty string coerces to 0, anything unparsable is NaN).
The rational `±(ip.d₁…d_k)` is built with one `mkRat` so that concrete
inputs evaluate by kernel reduction.  Hexadecimal, exponent and `Infinity`
forms are not modelled; no theorem in this development depends on them,
since both the embedded handler condition and the claim-side condition go
through this same coercion. -/
def strToNumber (s : String) : JsNumber :=
  let t := jsTrim s
  if t = "" then .fin 0
  else
    let p : Bool × List Char :=
      match t.data with
      | '-' :: cs => (true, cs)
      | '+' :: cs => (false, cs)
      | cs => (false, cs)
    let neg := p.1
    let q := splitDot p.2
    match q.2 with
    | none =>
      match parseNatDigits q.1 with
      | some n => .fin (mkRat (if neg then -(n : ℤ) else (n : ℤ)) 1)
      | none => .nan
    | some fp =>
      if q.1.all Char.isDigit ∧ fp.all Char.isDigit ∧ ¬(q.1 = [] ∧ fp = []) then
        let n : ℤ :=
          ((parseNatDigits q.1).getD 0 * 10 ^ fp.length +
            (parseNatDigits fp).getD 0 : ℕ)
        .fin (mkRat (if neg then -n else n) (10 ^ fp.length))
      else .nan

/-- JavaScript `Number(v)` coercion. -/
def toNumber : JsVal → JsNumber
  | .undefined => .nan
  | .null => .fin 0
  | .bool b => .fin (if b then 1 else 0)
  | .num q => .fin q
  | .str s => strToNumber s

/-- JavaScript `String(v)` coercion.  The exact decimal rendering of numbers
is approximated by the rational's `toString`; the handlers only test the
result for emptiness (after trimming) and otherwise pass it opaquely to the
`parseUnits` oracle, so the rendering detail is never load-bearing. -/
def jsToString : JsVal → String
  | .undefined => "undefined"
  | .null => "null"
  | .bool b => if b then "true" else "false"
  | .num q => toString q
  | .str s => s

/-- `n <= 0` in JavaScript on a coerced number (false for NaN). -/
def numLeZero : JsNumber → Bool
  | .nan => false
  | .fin q => decide (q ≤ 0)

/-- An HTTP/JSON response; absent JSON keys are `none`.  A single shape
serves every endpoint of both variants. -/
structure Resp where
  code : ℕ
  error : Option String := none
  jobId : Option String := none
  status : Option Status := none
  simulated : Option Bool := none
  txHash : Option String := none
  explorerUrl : Option String := none
  evmTxHash : Option String := none
deriving DecidableEq, Repr

/-- Job record of the `src/server.js` variant ("A"): timestamps are opaque
naturals. -/
structure JobA where
  id : String
  status : Status
  createdAt : ℕ
  updatedAt : ℕ
  request : List (String × JsVal)
  simulated : Bool
  txHash : Option String
  explorerUrl : Option String
  errorMessage : Option String
deriving DecidableEq, Repr

/-- `createJob` of the `src/server.js` variant. -/
def createJobA (id : String) (now : ℕ) (payload : List (String × JsVal)) : JobA :=
  { id := id
    status := .pending
    createdAt := now
    updatedAt := now
    request := payload
    simulated := false
    txHash := none
    explorerUrl := none
    errorMessage := none }

/-- A partial update as passed to `updateJob` in the A variant; `none` means
the field is absent from the updates object.  `txHash`, `explorerUrl` and
`errorMessage` updates may explicitly set `null` (`some none`). -/
structure UpdatesA where
  status : Option Status := none
  simulated : Option Bool := none
  txHash : Option (Option String) := none
  explorerUrl : Option (Option String) := none
  errorMessage : Option (Option String) := none

/-- `updateJob` of the A variant: `Object.assign(job, updates, {updatedAt})`.
The registry lookup by id is implicit: within the execute handler the job is
known to exist and the id is fixed, so we model the update on the record. -/
def updateJobA (now : ℕ) (job : JobA) (u : UpdatesA) : JobA :=
  { job with
    status := u.status.getD job.status
    simulated := u.simulated.getD job.simulated
    txHash := u.txHash.getD job.txHash
    explorerUrl := u.explorerUrl.getD job.explorerUrl
    errorMessage := u.errorMessage.getD job.errorMessage
    updatedAt := now }

/-- Job record of the ESM variants ("B", `src/src/server.js` and
`src/unnamed/part_000`): only `errorMessage` and `evmTxHash` beyond the
common fields, both optional (absent = `none`). -/
structure JobB where
  id : String
  status : Status
  createdAt : ℕ
  updatedAt : ℕ
  request : List (String × JsVal)
  errorMessage : Option String
  evmTxHash : Option String
deriving DecidableEq, Repr

/-- `createJob` of the B variants. -/
def createJobB (id : String) (now : ℕ) (payload : List (String × JsVal)) : JobB :=
  { id := id
    status := .pending
    createdAt := now
    updatedAt := now
    request := payload
    errorMessage := none
    evmTxHash := none }

/-- A partial update as passed to `updateJob` in the B variants. -/
structure UpdatesB where
  status : Option Status := none
  errorMessage : Option String := none
  evmTxHash : Option String := none

/-- `updateJob` of the B variants. -/
def updateJobB (now : ℕ) (job : JobB) (u : UpdatesB) : JobB :=
  { job with
    status := u.status.getD job.status
    errorMessage := (u.errorMessage.map some).getD job.errorMessage
    evmTxHash := (u.evmTxHash.map some).getD job.evmTxHash
    updatedAt := now }

/-- The thirteen request fields the submit handlers destructure and store. -/
def recognizedFields : List String :=
  ["mode", "amount", "fromChain", "toChain", "fromToken", "toToken",
   "receiver", "refund", "depositSignature", "identityCommitment",
   "publicKey", "phantomAddress", "evmAddress"]

/-- The payload object passed to `createJob` by the submit handlers: the
object literal re-listing exactly the thirteen destructured fields (a field
absent from the body is stored as `undefined`, as in JavaScript). -/
def requestOf (body : List (String × JsVal)) : List (String × JsVal) :=
  recognizedFields.map (fun k => (k, getField body k))

/-- The shared validation of `POST /bridge/submit`:
`!amount || Number(amount) <= 0` — true exactly when the request must be
rejected with "Invalid amount". -/
def invalidAmount (body : List (String × JsVal)) : Bool :=
  let amount := getField body "amount"
  !(truthy amount) || numLeZero (toNumber amount)

/-- `POST /bridge/submit` of the A variant: validation in source order, then
`createJob`.  `freshId` is the uuid allocated for this request and `now` the
current time; the registry is an association list keyed by job id. -/
def submitA (freshId : String) (now : ℕ) (jobs : List (String × JobA))
    (body : List (String × JsVal)) : Resp × List (String × JobA) :=
  if invalidAmount body then
    ({ code := 400, error := some "Invalid amount" }, jobs)
  else if !(truthy (getField body "receiver")) then
    ({ code := 400, error := some "Missing receiver" }, jobs)
  else if !(truthy (getField body "depositSignature")) then
    ({ code := 400, error := some "Missing depositSignature from Solana side" }, jobs)
  else
    let job := createJobA freshId now (requestOf body)
    ({ code := 200, jobId := some job.id, status := some job.status },
     (freshId, job) :: jobs)

/-- `POST /bridge/submit` of the B variants (same validation, B job shape). -/
def submitB (freshId : String) (now : ℕ) (jobs : List (String × JobB))
    (body : List (String × JsVal)) : Resp × List (String × JobB) :=
  if invalidAmount body then
    ({ code := 400, error := some "Invalid amount" }, jobs)
  else if !(truthy (getField body "receiver")) then
    ({ code := 400, error := some "Missing receiver" }, jobs)
  else if !(truthy (getField body "depositSignature")) then
    ({ code := 400, error := some "Missing depositSignature from Solana side" }, jobs)
  else
    let job := createJobB freshId now (requestOf body)
    ({ code := 200, jobId := some job.id, status := some job.status },
     (freshId, job) :: jobs)

/-- Result of `GET /bridge/job/:id` in the A variant: the full job record or
a 404. -/
inductive GetRespA
  | notFound
  | found (job : JobA)
deriving DecidableEq, Repr

/-- `GET /bridge/job/:id` of the A variant (a pure lookup; no mutation). -/
def getJobA (jobs : List (String × JobA)) (id : String) : GetRespA :=
  match jobs.lookup id with
  | none => .notFound
  | some job => .found job

/-- The configuration record built by `getEvmConfig` in the A variant
(environment parsing is plumbing outside every claim; the handler receives
the parsed record).  `rpcUrl` and `privateKey` default to the empty string
when the environment variable is unset, so absence is the empty string. -/
structure EvmConfig where
  rpcUrl : String
  privateKey : String
  decimals : ℕ
  enableSend : Bool
  explorerBase : String
deriving DecidableEq, Repr

/-- The environment variables the B-variant execute handler reads
(`none` = unset). -/
structure EnvB where
  ENABLE_EVM_SEND : Option String
  EVM_RPC_URL : Option String
  EVM_PRIVATE_KEY : Option String
  EVM_NATIVE_DECIMALS : Option String
deriving DecidableEq, Repr

/-- `requireEnv` of the B variants: throws `msg` when the variable is unset
or empty (`!val`), else returns it.  The default message (when `msg` is
omitted) is never exercised: both call sites pass an explicit message. -/
def requireEnv (val : Option String) (msg : String) : Except String String :=
  match val with
  | some v => if v = "" then .error msg else .ok v
  | none => .error msg

/-- An attempted outbound transaction broadcast:
`wallet.sendTransaction({to, value})`. -/
structure Send where
  toAddr : JsVal
  value : ℤ
deriving DecidableEq, Repr

/-- Oracle for the ethers library calls made by one execute invocation.
`parseUnits` gives the outcome of `ethers.utils.parseUnits(amountStr,
decimals)` (an exception message or the scaled integer value);
`sendResult` the outcome of `wallet.sendTransaction` (exception message or
transaction hash); `waitResult` the outcome of `tx.wait(1)` (A variant
only).  A `JsonRpcProvider`/`Wallet` constructor exception is folded into
the `parseUnits` error case: in both variants it is raised at the same
point of the try block relative to every state update, is handled by the
same catch, and produces the same observable outcome. -/
structure EvmWorld where
  parseUnits : String → JsNumber → Except String ℤ
  sendResult : Except String String
  waitResult : Except String Unit

/-- Result of one `POST /bridge/job/:id/execute` invocation in the A
variant: the response, the final state of the addressed job (`none` when
the id was unknown), the job states after each `updateJob` call in order,
and the broadcasts attempted. -/
structure ExecOutA where
  resp : Resp
  job : Option JobA
  trace : List JobA
  sends : List Send

/-- The `String(job.request.amount || "").trim()` computation of the A
variant's execute handler. -/
def amountStrA (request : List (String × JsVal)) : String :=
  jsTrim (jsToString (jsOr (getField request "amount") (.str "")))

/-- `POST /bridge/job/:id/execute` of the A variant (`src/server.js`).
`jobIn` is `jobs[jobId]` (`none` = not found), `now` the timestamp used for
the updates of this invocation. -/
def executeA (cfg : EvmConfig) (w : EvmWorld) (now : ℕ) (jobIn : Option JobA) :
    ExecOutA :=
  match jobIn with
  | none =>
    { resp := { code := 404, error := some "Job not found" }
      job := none, trace := [], sends := [] }
  | some job =>
    if job.status ≠ .pending then
      { resp := { code := 400
                  error := some ("Job is already " ++ statusStr job.status ++
                    ", cannot execute.") }
        job := some job, trace := [], sends := [] }
    else
      let amountStr := amountStrA job.request
      let receiver := getField job.request "receiver"
      if amountStr = "" then
        let updated := updateJobA now job
          { status := some .failed
            errorMessage := some (some "Missing amount in job payload") }
        { resp := { code := 400, jobId := some updated.id
                    status := some updated.status
                    simulated := some updated.simulated
                    error := updated.errorMessage }
          job := some updated, trace := [updated], sends := [] }
      else if ¬ truthy receiver then
        let updated := updateJobA now job
          { status := some .failed
            errorMessage := some (some "Missing receiver in job payload") }
        { resp := { code := 400, jobId := some updated.id
                    status := some updated.status
                    simulated := some updated.simulated
                    error := updated.errorMessage }
          job := some updated, trace := [updated], sends := [] }
      else if ¬ cfg.enableSend then
        let updated := updateJobA now job
          { status := some .completed, simulated := some true }
        { resp := { code := 200, jobId := some updated.id
                    status := some updated.status
                    simulated := some true }
          job := some updated, trace := [updated], sends := [] }
      else if cfg.rpcUrl = "" ∨ cfg.privateKey = "" then
        let updated := updateJobA now job
          { status := some .failed
            errorMessage :=
              some (some "EVM_RPC_URL or EVM_PRIVATE_KEY not configured") }
        { resp := { code := 500, jobId := some updated.id
                    status := some updated.status
                    simulated := some updated.simulated
                    error := updated.errorMessage }
          job := some updated, trace := [updated], sends := [] }
      else
        match w.parseUnits amountStr (.fin cfg.decimals) with
        | .error msg =>
          let updated := updateJobA now job
            { status := some .failed, simulated := some false
              errorMessage := some (some msg) }
          { resp := { code := 500, jobId := some updated.id
                      status := some updated.status
                      simulated := some updated.simulated
                      error := updated.errorMessage }
            job := some updated, trace := [updated], sends := [] }
        | .ok value =>
          let j1 := updateJobA now job { status := some .executing }
          match w.sendResult with
          | .error msg =>
            let updated := updateJobA now j1
              { status := some .failed, simulated := some false
                errorMessage := some (some msg) }
            { resp := { code := 500, jobId := some updated.id
                        status := some updated.status
                        simulated := some updated.simulated
                        error := updated.errorMessage }
              job := some updated, trace := [j1, updated]
              sends := [{ toAddr := receiver, value := value }] }
          | .ok txh =>
            let explorerUrl : Option String :=
              if cfg.explorerBase ≠ "" then some (cfg.explorerBase ++ txh)
              else none
            match w.waitResult with
            | .error msg =>
              let updated := updateJobA now j1
                { status := some .failed, simulated := some false
                  errorMessage := some (some msg) }
              { resp := { code := 500, jobId := some updated.id
                          status := some updated.status
                          simulated := some updated.simulated
                          error := updated.errorMessage }
                job := some updated, trace := [j1, updated]
                sends := [{ toAddr := receiver, value := value }] }
            | .ok _ =>
              let updated := updateJobA now j1
                { status := some .completed, simulated := some false
                  txHash := some (some txh)
                  explorerUrl := some explorerUrl
                  errorMessage := some none }
              { resp := { code := 200, jobId := some updated.id
                          status := some updated.status
                          simulated := some false
                          txHash := updated.txHash
                          explorerUrl := updated.explorerUrl }
                job := some updated, trace := [j1, updated]
                sends := [{ toAddr := receiver, value := value }] }

/-- Result of one execute invocation in the B variants. -/
structure ExecOutB where
  resp : Resp
  job : Option JobB
  trace : List JobB
  sends : List Send

/-- The catch handler of the B variants' execute route: force the job to
`failed` with the exception message and answer 500 with a generic error. -/
def catchB (now : ℕ) (j : JobB) (msg : String) (sends : List Send)
    (trace : List JobB) : ExecOutB :=
  let updated := updateJobB now j
    { status := some .failed, errorMessage := some msg }
  { resp := { code := 500, error := some "Failed to execute EVM payout" }
    job := some updated, trace := trace ++ [updated], sends := sends }

/-- `POST /bridge/job/:id/execute` of the B variants (`src/src/server.js`
and `src/unnamed/part_000`, which are behaviourally identical). -/
def executeB (env : EnvB) (w : EvmWorld) (now : ℕ) (jobIn : Option JobB) :
    ExecOutB :=
  match jobIn with
  | none =>
    { resp := { code := 404, error := some "Job not found" }
      job := none, trace := [], sends := [] }
  | some job =>
    if job.status ≠ .pending then
      { resp := { code := 400
                  error := some ("Job is already " ++ statusStr job.status ++
                    ", cannot execute.") }
        job := some job, trace := [], sends := [] }
    else
      let enableEvmSend := env.ENABLE_EVM_SEND = some "true"
      let j1 := updateJobB now job { status := some .executing }
      if ¬ enableEvmSend then
        let j2 := updateJobB now j1 { status := some .completed }
        { resp := { code := 200, jobId := some job.id
                    status := some .completed, simulated := some true }
          job := some j2, trace := [j1, j2], sends := [] }
      else
        match requireEnv env.EVM_RPC_URL
            "EVM_RPC_URL is required when ENABLE_EVM_SEND=true" with
        | .error msg => catchB now j1 msg [] [j1]
        | .ok _rpcUrl =>
          match requireEnv env.EVM_PRIVATE_KEY
              "EVM_PRIVATE_KEY is required when ENABLE_EVM_SEND=true" with
          | .error msg => catchB now j1 msg [] [j1]
          | .ok _pk =>
            let decimals :=
              toNumber (jsOr (match env.EVM_NATIVE_DECIMALS with
                | some s => .str s
                | none => .undefined) (.str "18"))
            let amountStr := jsToString (jsOr (getField job.request "amount") (.str "0"))
            match w.parseUnits amountStr decimals with
            | .error msg => catchB now j1 msg [] [j1]
            | .ok value =>
              match w.sendResult with
              | .error msg =>
                catchB now j1 msg
                  [{ toAddr := getField job.request "receiver", value := value }] [j1]
              | .ok txh =>
                let j2 := updateJobB now j1
                  { status := some .completed, evmTxHash := some txh }
                { resp := { code := 200, jobId := some job.id
                            status := some .completed
                            evmTxHash := some txh, simulated := some false }
                  job := some j2, trace := [j1, j2]
                  sends := [{ toAddr := getField job.request "receiver", value := value }] }

/-- One permitted status step: stay put, leave `pending` forward, or leave
`executing` for a terminal state.  In particular nothing leaves `completed`
or `failed`, and nothing moves backwards. -/
def forwardOk : Status → Status → Bool
  | a, b =>
    a == b ||
    (a == .pending && b != .pending) ||
    (a == .executing && (b == .completed || b == .failed))

/-- Every consecutive pair of the list is a permitted status step. -/
def chainOk : List Status → Bool
  | [] => true
  | [_] => true
  | a :: b :: rest => forwardOk a b && chainOk (b :: rest)

/-- Claim-side reading of "missing or ≤ 0 amount" in the submit validation:
the field is absent, or its JavaScript numeric coercion is a (finite)
number ≤ 0 (`NaN <= 0` is false in JavaScript, so a NaN coercion does not
count as ≤ 0). -/
def amountMissingOrNonpos (body : List (String × JsVal)) : Prop :=
  getField body "amount" = .undefined ∨
  ∃ q, toNumber (getField body "amount") = .fin q ∧ q ≤ 0

/-- The handler condition `!amount || Number(amount) <= 0` coincides with
the claim-side condition "amount missing or ≤ 0" over JSON body values. -/
theorem invalidAmount_iff (body : List (String × JsVal)) :
    invalidAmount body = true ↔ amountMissingOrNonpos body := by
  unfold invalidAmount amountMissingOrNonpos
  cases h : getField body "amount" with
  | undefined => simp [truthy, toNumber, numLeZero]
  | null =>
    simp only [truthy, toNumber, numLeZero, Bool.not_false, Bool.true_or,
      true_iff]
    exact Or.inr ⟨0, rfl, le_refl 0⟩
  | bool b =>
    cases b with
    | false =>
      simp only [truthy, toNumber, numLeZero, Bool.not_false, Bool.true_or,
        true_iff, if_neg (by simp : ¬False)]
      exact Or.inr ⟨0, by norm_num, le_refl 0⟩
    | true =>
      simp only [truthy, toNumber, numLeZero, Bool.not_true, Bool.false_or]
      constructor
      · intro hq
        simp at hq
        exact absurd hq (by norm_num)
      · rintro (hu | ⟨q, hq, hle⟩)
        · exact absurd hu (by simp)
        · simp at hq
          subst hq
          exact absurd hle (by norm_num)
  | num q =>
    simp only [truthy, toNumber, numLeZero]
    constructor
    · intro hq
      rcases Bool.or_eq_true_iff.mp hq with h1 | h2
      · refine Or.inr ⟨q, rfl, ?_⟩
        simp at h1
        simp [h1]
      · exact Or.inr ⟨q, rfl, by simpa using h2⟩
    · rintro (hu | ⟨q', hq', hle⟩)
      · exact absurd hu (by simp)
      · apply Bool.or_eq_true_iff.mpr
        right
        injection hq' with hqq
        subst hqq
        simpa using hle
  | str s =>
    by_cases hs : s = ""
    · subst hs
      simp only [truthy, toNumber, numLeZero, decide_not]
      constructor
      · intro _
        exact Or.inr ⟨0, rfl, le_refl 0⟩
      · intro _
        simp
    · simp only [truthy, toNumber]
      cases hn : strToNumber s with
      | nan =>
        simp only [numLeZero]
        constructor
        · intro hq
          simp [hs] at hq
        · rintro (hu | ⟨q, hq, _⟩)
          · exact absurd hu (by simp)
          · exact absurd hq (by simp)
      | fin q =>
        simp only [numLeZero]
        constructor
        · intro hq
          simp [hs] at hq
          exact Or.inr ⟨q, rfl, hq⟩
        · rintro (hu | ⟨q', hq', hle⟩)
          · exact absurd hu (by simp)
          · injection hq' with hqq
            subst hqq
            simp [hs, hle]

/-- A library oracle in which every call succeeds. -/
def wOk : EvmWorld :=
  { parseUnits := fun _ _ => .ok 1
    sendResult := .ok "0xdeadbeef"
    waitResult := .ok () }

/-- Environment with no EVM variables set (simulated mode for B). -/
def envSimFix : EnvB :=
  { ENABLE_EVM_SEND := none, EVM_RPC_URL := none
    EVM_PRIVATE_KEY := none, EVM_NATIVE_DECIMALS := none }

/-- Environment enabling real sends with no RPC/key configured. -/
def envRealMissingFix : EnvB :=
  { ENABLE_EVM_SEND := some "true", EVM_RPC_URL := none
    EVM_PRIVATE_KEY := none, EVM_NATIVE_DECIMALS := none }

/-- A-variant configuration: simulated mode. -/
def cfgSimFix : EvmConfig :=
  { rpcUrl := "", privateKey := "", decimals := 18
    enableSend := false, explorerBase := "" }

/-- A-variant configuration: real mode with no RPC/key configured. -/
def cfgRealMissingFix : EvmConfig :=
  { rpcUrl := "", privateKey := "", decimals := 18
    enableSend := true, explorerBase := "" }

/-- A-variant configuration: real mode, fully configured. -/
def cfgRealFix : EvmConfig :=
  { rpcUrl := "https://rpc.example", privateKey := "0xkey", decimals := 18
    enableSend := true, explorerBase := "" }

/-- A well-formed submission body. -/
def bodyOk : List (String × JsVal) :=
  [("amount", .str "1.5"), ("receiver", .str "0xABC"),
   ("depositSignature", .str "sig123"), ("fromChain", .str "solana"),
   ("toChain", .str "ethereum")]

/-- A submission body whose amount is the non-numeric string "abc". -/
def bodyAbc : List (String × JsVal) :=
  [("amount", .str "abc"), ("receiver", .str "0xABC"),
   ("depositSignature", .str "sig123")]

/-- A pending A-variant job with amount and receiver present. -/
def jobAOk : JobA := createJobA "job-a" 0 (requestOf bodyOk)

/-- A completed A-variant job (already executed). -/
def jobADone : JobA := { jobAOk with status := .completed }

/-- A pending A-variant job whose stored request lacks `amount`. -/
def jobANoAmountFix : JobA := createJobA "job-a" 0 [("receiver", .str "0xE")]

/-- A pending B-variant job with amount and receiver present. -/
def jobBOk : JobB := createJobB "job-b" 0 (requestOf bodyOk)

/-- A failed B-variant job (already executed). -/
def jobBDone : JobB := { jobBOk with status := .failed }

/-- A pending B-variant job whose stored request lacks `amount`. -/
def jobBNoAmountFix : JobB := createJobB "job-b" 0 [("receiver", .str "0xE")]

/-- C1: for every job whose status is not `pending`, the execute handler of
either variant answers 400 with a message naming the current status and
performs no update at all: the job record (every field, `updatedAt`
included) is returned unchanged, no update is traced and no broadcast is
attempted. -/
theorem C1_nonpending_execute_rejected_unchanged
    (cfg : EvmConfig) (env : EnvB) (w wB : EvmWorld) (now nowB : ℕ)
    (ja : JobA) (jb : JobB)
    (ha : ja.status ≠ .pending) (hb : jb.status ≠ .pending) :
    (executeA cfg w now (some ja)).resp.code = 400 ∧
    (executeA cfg w now (some ja)).resp.error =
      some ("Job is already " ++ statusStr ja.status ++ ", cannot execute.") ∧
    (executeA cfg w now (some ja)).job = some ja ∧
    (executeA cfg w now (some ja)).trace = [] ∧
    (executeA cfg w now (some ja)).sends = [] ∧
    (executeB env wB nowB (some jb)).resp.code = 400 ∧
    (executeB env wB nowB (some jb)).resp.error =
      some ("Job is already " ++ statusStr jb.status ++ ", cannot execute.") ∧
    (executeB env wB nowB (some jb)).job = some jb ∧
    (executeB env wB nowB (some jb)).trace = [] ∧
    (executeB env wB nowB (some jb)).sends = [] := by
  unfold executeA executeB
  simp [ha, hb]

/-- Closed witness for C1 at a concrete completed job (A) and failed job
(B). -/
theorem C1_nonpending_execute_rejected_unchanged_witness :
    jobADone.status ≠ Status.pending ∧ jobBDone.status ≠ Status.pending ∧
    (executeA cfgSimFix wOk 1 (some jobADone)).resp.code = 400 ∧
    (executeA cfgSimFix wOk 1 (some jobADone)).job = some jobADone ∧
    (executeB envSimFix wOk 1 (some jobBDone)).job = some jobBDone := by
  have h := C1_nonpending_execute_rejected_unchanged cfgSimFix envSimFix wOk
    wOk 1 1 jobADone jobBDone (by decide) (by decide)
  exact ⟨by decide, by decide, h.1, h.2.2.1, h.2.2.2.2.2.2.2.1⟩

/-- C8: a body whose `amount` is the non-numeric string "abc" (so that
`Number(amount)` is NaN and `Number(amount) <= 0` is false) with non-empty
`receiver` and `depositSignature` is accepted by the submit handler of both
variants: 200, job created in status `pending`. -/
theorem C8_nan_amount_accepted :
    toNumber (.str "abc") = JsNumber.nan ∧
    numLeZero (toNumber (.str "abc")) = false ∧
    (submitA "job-1" 7 [] bodyAbc).1.code = 200 ∧
    (submitA "job-1" 7 [] bodyAbc).1.status = some Status.pending ∧
    (submitA "job-1" 7 [] bodyAbc).2 =
      [("job-1", createJobA "job-1" 7 (requestOf bodyAbc))] ∧
    (createJobA "job-1" 7 (requestOf bodyAbc)).status = Status.pending ∧
    (submitB "job-1" 7 [] bodyAbc).1.code = 200 ∧
    (submitB "job-1" 7 [] bodyAbc).1.status = some Status.pending ∧
    (submitB "job-1" 7 [] bodyAbc).2 =
      [("job-1", createJobB "job-1" 7 (requestOf bodyAbc))] := by
  decide

/-- C10: in the `src/server.js` variant every job the submit handler
creates starts with `simulated = false` and `txHash`, `explorerUrl`,
`errorMessage` all null, and a GET on the still-pending job returns that
record (hence reports `simulated: false` before any execution). -/
theorem C10_created_job_initial_fields
    (freshId : String) (now : ℕ) (payload : List (String × JsVal))
    (jobs : List (String × JobA)) :
    createJobA freshId now payload =
      { id := freshId, status := .pending, createdAt := now
        updatedAt := now, request := payload, simulated := false
        txHash := none, explorerUrl := none, errorMessage := none } ∧
    getJobA ((freshId, createJobA freshId now payload) :: jobs) freshId =
      .found (createJobA freshId now payload) ∧
    (createJobA freshId now payload).simulated = false ∧
    (createJobA freshId now payload).status = Status.pending := by
  refine ⟨rfl, ?_, rfl, rfl⟩
  simp [getJobA, List.lookup]

/-- C5: both submit handlers validate in the fixed order amount, receiver,
depositSignature — a missing or ≤ 0 amount gives 400 "Invalid amount",
else a missing (falsy) receiver gives 400 "Missing receiver", else a
missing (falsy) depositSignature gives 400 "Missing depositSignature from
Solana side" — and every rejection leaves the registry unchanged. -/
theorem C5_submit_validation_order
    (freshId : String) (now nowB : ℕ) (jobsA : List (String × JobA))
    (jobsB : List (String × JobB)) (body : List (String × JsVal)) :
    (amountMissingOrNonpos body →
      submitA freshId now jobsA body =
        ({ code := 400, error := some "Invalid amount" }, jobsA) ∧
      submitB freshId nowB jobsB body =
        ({ code := 400, error := some "Invalid amount" }, jobsB)) ∧
    (¬ amountMissingOrNonpos body →
      truthy (getField body "receiver") = false →
      submitA freshId now jobsA body =
        ({ code := 400, error := some "Missing receiver" }, jobsA) ∧
      submitB freshId nowB jobsB body =
        ({ code := 400, error := some "Missing receiver" }, jobsB)) ∧
    (¬ amountMissingOrNonpos body →
      truthy (getField body "receiver") = true →
      truthy (getField body "depositSignature") = false →
      submitA freshId now jobsA body =
        ({ code := 400
           error := some "Missing depositSignature from Solana side" },
         jobsA) ∧
      submitB freshId nowB jobsB body =
        ({ code := 400
           error := some "Missing depositSignature from Solana side" },
         jobsB)) := by
  refine ⟨fun hbad => ?_, fun hok hr => ?_, fun hok hr hd => ?_⟩
  · have h : invalidAmount body = true := (invalidAmount_iff body).mpr hbad
    unfold submitA submitB
    simp [h]
  · have h : invalidAmount body = false := by
      rcases Bool.eq_false_or_eq_true (invalidAmount body) with h | h
      · exact absurd ((invalidAmount_iff body).mp h) hok
      · exact h
    unfold submitA submitB
    simp [h, hr]
  · have h : invalidAmount body = false := by
      rcases Bool.eq_false_or_eq_true (invalidAmount body) with h | h
      · exact absurd ((invalidAmount_iff body).mp h) hok
      · exact h
    unfold submitA submitB
    simp [h, hr, hd]

/-- Closed witness for C5: a body with a valid amount and no receiver is
rejected with "Missing receiver" and the registry stays empty. -/
theorem C5_submit_validation_order_witness :
    ¬ amountMissingOrNonpos [("amount", JsVal.str "5")] ∧
    truthy (getField [("amount", JsVal.str "5")] "receiver") = false ∧
    submitA "job-1" 3 [] [("amount", JsVal.str "5")] =
      ({ code := 400, error := some "Missing receiver" }, []) := by
  have hok : ¬ amountMissingOrNonpos [("amount", JsVal.str "5")] := by
    rintro (hu | ⟨q, hq, hle⟩)
    · exact absurd hu (by decide)
    · rw [show toNumber (getField [("amount", JsVal.str "5")] "amount") =
        JsNumber.fin 5 from by decide] at hq
      injection hq with hqq
      subst hqq
      exact absurd hle (by norm_num)
  refine ⟨hok, by decide, ?_⟩
  exact ((C5_submit_validation_order "job-1" 3 3 [] [] [("amount", JsVal.str "5")]).2.1
    hok (by decide)).1

/-- C6: with real sends disabled, executing a pending job with a present
(non-empty) amount and a truthy receiver always ends in `completed` with no
broadcast attempted.  In the A variant the job record gains
`simulated = true` and its `txHash` field is untouched (null for every job
the submit handler created); in the B variants (whose job record stores no
`simulated` field) the response carries `simulated: true` and no
transaction hash, and the record's `evmTxHash` stays absent. -/
theorem C6_simulated_mode_completes
    (cfg : EvmConfig) (env : EnvB) (w wB : EvmWorld) (now nowB : ℕ)
    (ja : JobA) (jb : JobB)
    (hpa : ja.status = .pending) (hamt : amountStrA ja.request ≠ "")
    (hrecv : truthy (getField ja.request "receiver") = true)
    (hsim : cfg.enableSend = false)
    (hpb : jb.status = .pending) (hsimB : env.ENABLE_EVM_SEND ≠ some "true") :
    executeA cfg w now (some ja) =
      { resp := { code := 200, jobId := some ja.id
                  status := some .completed, simulated := some true }
        job := some { ja with status := .completed, simulated := true, updatedAt := now }
        trace := [{ ja with status := .completed, simulated := true, updatedAt := now }]
        sends := [] } ∧
    executeB env wB nowB (some jb) =
      { resp := { code := 200, jobId := some jb.id
                  status := some .completed, simulated := some true }
        job := some { jb with status := .completed, updatedAt := nowB }
        trace := [{ jb with status := .executing, updatedAt := nowB },
                  { jb with status := .completed, updatedAt := nowB }]
        sends := [] } := by
  constructor
  · simp [executeA, hpa, hamt, hrecv, hsim, updateJobA]
  · simp [executeB, hpb, hsimB, updateJobB]

/-- Closed witness for C6 at a concrete pending job in simulated mode. -/
theorem C6_simulated_mode_completes_witness :
    jobAOk.status = Status.pending ∧ amountStrA jobAOk.request ≠ "" ∧
    truthy (getField jobAOk.request "receiver") = true ∧
    cfgSimFix.enableSend = false ∧ jobBOk.status = Status.pending ∧
    envSimFix.ENABLE_EVM_SEND ≠ some "true" ∧
    (executeA cfgSimFix wOk 5 (some jobAOk)).job =
      some { jobAOk with status := .completed, simulated := true, updatedAt := 5 } ∧
    (executeB envSimFix wOk 5 (some jobBOk)).job =
      some { jobBOk with status := .completed, updatedAt := 5 } := by
  have h := C6_simulated_mode_completes cfgSimFix envSimFix wOk wOk 5 5
    jobAOk jobBOk (by decide) (by decide) (by decide) (by decide) (by decide)
    (by decide)
  refine ⟨by decide, by decide, by decide, by decide, by decide, by decide,
    ?_, ?_⟩
  · rw [h.1]
  · rw [h.2]

/-- A request whose `amount` field is absent stringifies (via
`String(amount || "")`) to the empty string in the A variant. -/
theorem amountStrA_of_undefined (r : List (String × JsVal))
    (h : getField r "amount" = .undefined) : amountStrA r = "" := by
  unfold amountStrA
  rw [h]
  rfl

/-- In the B variants, every execute invocation on a pending job first
transitions it to `executing` (the first `updateJob` of the try block),
whatever the environment, the oracle and the stored request. -/
theorem executeB_pending_trace_head (env : EnvB) (w : EvmWorld) (now : ℕ)
    (jb : JobB) (hp : jb.status = .pending) :
    ((executeB env w now (some jb)).trace.map JobB.status).head? =
      some Status.executing := by
  simp only [executeB, hp]
  rw [if_neg (by simp)]
  split
  · simp [updateJobB]
  · repeat' split
    all_goals simp [catchB, updateJobB]

/-- C2 counterexample: in the ESM variants (`src/src/server.js`,
`src/unnamed/part_000`, both cited by the claim) a pending job whose stored
request lacks `amount` is not failed: in simulated mode it passes through
`executing` and ends `completed`, refuting both halves of the claim there. -/
theorem C2_counterexample :
    getField jobBNoAmountFix.request "amount" = JsVal.undefined ∧
    jobBNoAmountFix.status = Status.pending ∧
    (executeB envSimFix wOk 1 (some jobBNoAmountFix)).job.map JobB.status =
      some Status.completed ∧
    Status.executing ∈
      (executeB envSimFix wOk 1 (some jobBNoAmountFix)).trace.map
        JobB.status := by
  decide

/-- C2 amended: in the `src/server.js` variant, a pending job whose request
lacks `amount` or lacks `receiver` is failed directly (single update, 400,
one of the two missing-field messages) without ever reaching `executing`;
the ESM variants perform no such check — they always enter `executing`
first and, in simulated mode, end `completed`. -/
theorem C2_missing_fields_fail_before_executing
    (cfg : EvmConfig) (w : EvmWorld) (now : ℕ) (ja : JobA)
    (env : EnvB) (wB : EvmWorld) (nowB : ℕ) (jb : JobB)
    (hpa : ja.status = .pending)
    (hmiss : getField ja.request "amount" = .undefined ∨
             getField ja.request "receiver" = .undefined)
    (hpb : jb.status = .pending) :
    ((executeA cfg w now (some ja)).job.map JobA.status = some .failed ∧
     (executeA cfg w now (some ja)).trace.map JobA.status = [.failed] ∧
     Status.executing ∉
       (executeA cfg w now (some ja)).trace.map JobA.status ∧
     (executeA cfg w now (some ja)).resp.code = 400 ∧
     ((executeA cfg w now (some ja)).job.map JobA.errorMessage =
        some (some "Missing amount in job payload") ∨
      (executeA cfg w now (some ja)).job.map JobA.errorMessage =
        some (some "Missing receiver in job payload"))) ∧
    (((executeB env wB nowB (some jb)).trace.map JobB.status).head? =
       some .executing ∧
     (env.ENABLE_EVM_SEND ≠ some "true" →
       (executeB env wB nowB (some jb)).job.map JobB.status =
         some .completed)) := by
  refine ⟨?_, executeB_pending_trace_head env wB nowB jb hpb, fun hsim => ?_⟩
  · by_cases hA : amountStrA ja.request = ""
    · simp [executeA, hpa, hA, updateJobA]
    · have hrecv : getField ja.request "receiver" = .undefined := by
        rcases hmiss with h | h
        · exact absurd (amountStrA_of_undefined _ h) hA
        · exact h
      simp [executeA, hpa, hA, hrecv, truthy, updateJobA]
  · simp [executeB, hpb, hsim, updateJobB]

/-- Closed witness for C2's amended theorem at a concrete A-variant job
lacking `amount`. -/
theorem C2_missing_fields_fail_before_executing_witness :
    jobANoAmountFix.status = Status.pending ∧
    getField jobANoAmountFix.request "amount" = JsVal.undefined ∧
    jobBNoAmountFix.status = Status.pending ∧
    (executeA cfgSimFix wOk 1 (some jobANoAmountFix)).job.map JobA.status =
      some Status.failed := by
  have h := C2_missing_fields_fail_before_executing cfgSimFix wOk 1
    jobANoAmountFix envSimFix wOk 1 jobBNoAmountFix (by decide)
    (Or.inl (by decide)) (by decide)
  exact ⟨by decide, by decide, by decide, h.1.1⟩

/-- C3 counterexample: in the `src/server.js` variant, with real mode on
and the RPC endpoint unconfigured, a pending job whose request lacks
`amount` does not produce a configuration failure with a 5xx: the
missing-amount check fires first, giving a 400 and the missing-amount
message, refuting the claim's "regardless of the job's request content". -/
theorem C3_counterexample :
    cfgRealMissingFix.enableSend = true ∧ cfgRealMissingFix.rpcUrl = "" ∧
    jobANoAmountFix.status = Status.pending ∧
    (executeA cfgRealMissingFix wOk 1 (some jobANoAmountFix)).resp.code =
      400 ∧
    (executeA cfgRealMissingFix wOk 1 (some jobANoAmountFix)).resp.code <
      500 ∧
    (executeA cfgRealMissingFix wOk 1 (some jobANoAmountFix)).job.map
        JobA.errorMessage = some (some "Missing amount in job payload") := by
  decide

/-- C3 amended: with real mode on and RPC endpoint or signing key absent,
execution ends `failed` with a configuration error message and a 500 with
no broadcast — in the ESM variants for every pending job regardless of
request content, and in the `src/server.js` variant provided the stored
amount (stringified, trimmed) is non-empty and the receiver is truthy
(otherwise that variant fails earlier with a missing-field message and a
400, per the counterexample). -/
theorem C3_config_missing_fails
    (cfg : EvmConfig) (w : EvmWorld) (now : ℕ) (ja : JobA)
    (env : EnvB) (wB : EvmWorld) (nowB : ℕ) (jb : JobB)
    (hpa : ja.status = .pending) (hamt : amountStrA ja.request ≠ "")
    (hrecv : truthy (getField ja.request "receiver") = true)
    (hreal : cfg.enableSend = true)
    (hmiss : cfg.rpcUrl = "" ∨ cfg.privateKey = "")
    (hpb : jb.status = .pending)
    (hrealB : env.ENABLE_EVM_SEND = some "true")
    (hmissB : (env.EVM_RPC_URL = none ∨ env.EVM_RPC_URL = some "") ∨
              (env.EVM_PRIVATE_KEY = none ∨ env.EVM_PRIVATE_KEY = some "")) :
    (executeA cfg w now (some ja)).job.map JobA.status = some .failed ∧
    (executeA cfg w now (some ja)).job.map JobA.errorMessage =
      some (some "EVM_RPC_URL or EVM_PRIVATE_KEY not configured") ∧
    (executeA cfg w now (some ja)).resp.code = 500 ∧
    (executeA cfg w now (some ja)).sends = [] ∧
    (executeB env wB nowB (some jb)).job.map JobB.status = some .failed ∧
    ((executeB env wB nowB (some jb)).job.map JobB.errorMessage =
       some (some "EVM_RPC_URL is required when ENABLE_EVM_SEND=true") ∨
     (executeB env wB nowB (some jb)).job.map JobB.errorMessage =
       some (some "EVM_PRIVATE_KEY is required when ENABLE_EVM_SEND=true")) ∧
    (executeB env wB nowB (some jb)).resp.code = 500 ∧
    (executeB env wB nowB (some jb)).sends = [] := by
  have hA : (executeA cfg w now (some ja)).job.map JobA.status =
      some .failed ∧
      (executeA cfg w now (some ja)).job.map JobA.errorMessage =
        some (some "EVM_RPC_URL or EVM_PRIVATE_KEY not configured") ∧
      (executeA cfg w now (some ja)).resp.code = 500 ∧
      (executeA cfg w now (some ja)).sends = [] := by
    rcases hmiss with h | h <;>
      simp [executeA, hpa, hamt, hrecv, hreal, h, updateJobA]
  have hB : (executeB env wB nowB (some jb)).job.map JobB.status =
      some .failed ∧
      ((executeB env wB nowB (some jb)).job.map JobB.errorMessage =
         some (some "EVM_RPC_URL is required when ENABLE_EVM_SEND=true") ∨
       (executeB env wB nowB (some jb)).job.map JobB.errorMessage =
         some (some "EVM_PRIVATE_KEY is required when ENABLE_EVM_SEND=true")) ∧
      (executeB env wB nowB (some jb)).resp.code = 500 ∧
      (executeB env wB nowB (some jb)).sends = [] := by
    rcases hmissB with hrpc | hpk
    · rcases hrpc with h | h <;>
        simp [executeB, hpb, hrealB, h, requireEnv, catchB, updateJobB]
    · cases hv : env.EVM_RPC_URL with
      | none =>
        simp [executeB, hpb, hrealB, hv, requireEnv, catchB, updateJobB]
      | some v =>
        by_cases hv2 : v = ""
        · subst hv2
          simp [executeB, hpb, hrealB, hv, requireEnv, catchB, updateJobB]
        · rcases hpk with h | h <;>
            simp [executeB, hpb, hrealB, hv, hv2, h, requireEnv, catchB,
              updateJobB]
  exact ⟨hA.1, hA.2.1, hA.2.2.1, hA.2.2.2, hB.1, hB.2.1, hB.2.2.1, hB.2.2.2⟩

/-- Closed witness for C3's amended theorem at a concrete well-formed job
with real mode on and nothing configured. -/
theorem C3_config_missing_fails_witness :
    jobAOk.status = Status.pending ∧ amountStrA jobAOk.request ≠ "" ∧
    cfgRealMissingFix.enableSend = true ∧ cfgRealMissingFix.rpcUrl = "" ∧
    envRealMissingFix.ENABLE_EVM_SEND = some "true" ∧
    (executeA cfgRealMissingFix wOk 2 (some jobAOk)).resp.code = 500 ∧
    (executeB envRealMissingFix wOk 2 (some jobBOk)).resp.code = 500 := by
  have h := C3_config_missing_fails cfgRealMissingFix wOk 2 jobAOk
    envRealMissingFix wOk 2 jobBOk (by decide) (by decide) (by decide)
    (by decide) (Or.inl rfl) (by decide) rfl (Or.inl (Or.inl rfl))
  exact ⟨by decide, by decide, by decide, by decide, rfl, h.2.2.1,
    h.2.2.2.2.2.2.1⟩

/-- C4 counterexample: in the `src/server.js` variant (cited by the claim)
a pending job with amount and receiver present, executed in simulated mode,
goes directly from `pending` to `completed` and never passes through
`executing`. -/
theorem C4_counterexample :
    jobAOk.status = Status.pending ∧
    amountStrA jobAOk.request ≠ "" ∧
    truthy (getField jobAOk.request "receiver") = true ∧
    (executeA cfgSimFix wOk 1 (some jobAOk)).trace.map JobA.status =
      [Status.completed] ∧
    Status.executing ∉
      (executeA cfgSimFix wOk 1 (some jobAOk)).trace.map JobA.status ∧
    (executeA cfgSimFix wOk 1 (some jobAOk)).job.map JobA.status =
      some Status.completed := by
  decide

/-- C4 amended: in the ESM variants every execution of a pending job first
transitions it to `executing`.  In the `src/server.js` variant this holds
only on the real-mode path (real sends on, RPC and key configured, amount
parsing succeeded), where `executing` is entered immediately before the
broadcast is attempted; the simulated-mode path instead moves the job
directly from `pending` to `completed`. -/
theorem C4_executing_only_on_real_path
    (env : EnvB) (wB : EvmWorld) (nowB : ℕ) (jb : JobB)
    (cfg cfgR : EvmConfig) (w wR : EvmWorld) (now nowR : ℕ)
    (ja jaR : JobA) (v : ℤ)
    (hpb : jb.status = .pending)
    (hpa : ja.status = .pending) (hamt : amountStrA ja.request ≠ "")
    (hrecv : truthy (getField ja.request "receiver") = true)
    (hsim : cfg.enableSend = false)
    (hpR : jaR.status = .pending) (hamtR : amountStrA jaR.request ≠ "")
    (hrecvR : truthy (getField jaR.request "receiver") = true)
    (hrealR : cfgR.enableSend = true) (hrpc : cfgR.rpcUrl ≠ "")
    (hpk : cfgR.privateKey ≠ "")
    (hparse : wR.parseUnits (amountStrA jaR.request) (.fin cfgR.decimals) =
      .ok v) :
    ((executeB env wB nowB (some jb)).trace.map JobB.status).head? =
      some .executing ∧
    (executeA cfg w now (some ja)).trace.map JobA.status = [.completed] ∧
    Status.executing ∉
      (executeA cfg w now (some ja)).trace.map JobA.status ∧
    ((executeA cfgR wR nowR (some jaR)).trace.map JobA.status).head? =
      some .executing ∧
    (executeA cfgR wR nowR (some jaR)).sends =
      [{ toAddr := getField jaR.request "receiver", value := v }] := by
  have hrealPath :
      ((executeA cfgR wR nowR (some jaR)).trace.map JobA.status).head? =
        some .executing ∧
      (executeA cfgR wR nowR (some jaR)).sends =
        [{ toAddr := getField jaR.request "receiver", value := v }] := by
    cases hs : wR.sendResult with
    | error msg =>
      simp [executeA, hpR, hamtR, hrecvR, hrealR, hrpc, hpk, hparse, hs,
        updateJobA]
    | ok txh =>
      cases hw : wR.waitResult with
      | error m2 =>
        simp [executeA, hpR, hamtR, hrecvR, hrealR, hrpc, hpk, hparse, hs,
          hw, updateJobA]
      | ok u =>
        simp [executeA, hpR, hamtR, hrecvR, hrealR, hrpc, hpk, hparse, hs,
          hw, updateJobA]
  refine ⟨executeB_pending_trace_head env wB nowB jb hpb, ?_, ?_,
    hrealPath.1, hrealPath.2⟩
  · simp [executeA, hpa, hamt, hrecv, hsim, updateJobA]
  · simp [executeA, hpa, hamt, hrecv, hsim, updateJobA]

/-- Closed witness for C4's amended theorem at concrete jobs: a B job in an
empty environment, an A job in simulated mode, and an A job on the real
path with a fully successful oracle. -/
theorem C4_executing_only_on_real_path_witness :
    jobBOk.status = Status.pending ∧ jobAOk.status = Status.pending ∧
    cfgSimFix.enableSend = false ∧ cfgRealFix.enableSend = true ∧
    cfgRealFix.rpcUrl ≠ "" ∧
    wOk.parseUnits (amountStrA jobAOk.request) (.fin cfgRealFix.decimals) =
      Except.ok 1 ∧
    ((executeB envSimFix wOk 3 (some jobBOk)).trace.map JobB.status).head? =
      some Status.executing ∧
    (executeA cfgSimFix wOk 3 (some jobAOk)).trace.map JobA.status =
      [Status.completed] ∧
    ((executeA cfgRealFix wOk 3 (some jobAOk)).trace.map JobA.status).head? =
      some Status.executing := by
  have h := C4_executing_only_on_real_path envSimFix wOk 3 jobBOk cfgSimFix
    cfgRealFix wOk wOk 3 3 jobAOk jobAOk 1 (by decide) (by decide)
    (by decide) (by decide) (by decide) (by decide) (by decide) (by decide)
    (by decide) (by decide) (by decide) rfl
  exact ⟨by decide, by decide, by decide, by decide, by decide, rfl, h.1,
    h.2.1, h.2.2.2.1⟩

/-- Whatever the configuration, oracle and job, the statuses an A-variant
execute invocation takes the job through (initial status included) form a
forward-only chain. -/
theorem chainOk_executeA (cfg : EvmConfig) (w : EvmWorld) (now : ℕ)
    (ja : JobA) :
    chainOk (ja.status ::
      (executeA cfg w now (some ja)).trace.map JobA.status) = true := by
  by_cases hp : ja.status = Status.pending
  · simp only [executeA, hp]
    rw [if_neg (by simp)]
    repeat' split
    all_goals simp [updateJobA, chainOk, forwardOk]
  · simp only [executeA]
    rw [if_pos hp]
    simp [chainOk]

/-- Whatever the environment, oracle and job, the statuses a B-variant
execute invocation takes the job through form a forward-only chain. -/
theorem chainOk_executeB (env : EnvB) (w : EvmWorld) (now : ℕ)
    (jb : JobB) :
    chainOk (jb.status ::
      (executeB env w now (some jb)).trace.map JobB.status) = true := by
  by_cases hp : jb.status = Status.pending
  · simp only [executeB, hp]
    rw [if_neg (by simp)]
    repeat' split
    all_goals simp [updateJobB, catchB, chainOk, forwardOk]
  · simp only [executeB]
    rw [if_pos hp]
    simp [chainOk]

/-- C7: status transitions are monotone and forward-only.  For any single
execute invocation of either variant the status sequence (initial status
followed by the status after each `updateJob` call) only ever steps
`pending → executing/completed/failed` or `executing → completed/failed`;
in particular a `completed` or `failed` job is returned with its whole
record unchanged.  Submit never touches an existing job (lookups of other
ids are preserved; it only prepends the fresh `pending` job), GET is a pure
lookup (embedded as `getJobA`, a function with no registry output), and
`updateJob` mutations occur only at the execute call sites covered by the
traces above. -/
theorem C7_status_monotone_forward_only
    (cfg : EvmConfig) (w : EvmWorld) (now : ℕ) (ja : JobA)
    (env : EnvB) (wB : EvmWorld) (nowB : ℕ) (jb : JobB)
    (freshId : String) (nowS nowSB : ℕ) (jobsA : List (String × JobA))
    (jobsB : List (String × JobB)) (body : List (String × JsVal))
    (id' : String) :
    chainOk (ja.status ::
      (executeA cfg w now (some ja)).trace.map JobA.status) = true ∧
    chainOk (jb.status ::
      (executeB env wB nowB (some jb)).trace.map JobB.status) = true ∧
    ((ja.status = .completed ∨ ja.status = .failed) →
      (executeA cfg w now (some ja)).job = some ja ∧
      (executeA cfg w now (some ja)).trace = []) ∧
    ((jb.status = .completed ∨ jb.status = .failed) →
      (executeB env wB nowB (some jb)).job = some jb ∧
      (executeB env wB nowB (some jb)).trace = []) ∧
    (id' ≠ freshId →
      ((submitA freshId nowS jobsA body).2).lookup id' = jobsA.lookup id' ∧
      ((submitB freshId nowSB jobsB body).2).lookup id' =
        jobsB.lookup id') := by
  refine ⟨chainOk_executeA cfg w now ja, chainOk_executeB env wB nowB jb,
    fun hta => ?_, fun htb => ?_, fun hne => ⟨?_, ?_⟩⟩
  · have hp : ja.status ≠ Status.pending := by
      rcases hta with h | h <;> simp [h]
    simp [executeA, hp]
  · have hp : jb.status ≠ Status.pending := by
      rcases htb with h | h <;> simp [h]
    simp [executeB, hp]
  · unfold submitA
    repeat' split
    · rfl
    · rfl
    · rfl
    · simp [List.lookup, beq_eq_false_iff_ne.mpr hne]
  · unfold submitB
    repeat' split
    · rfl
    · rfl
    · rfl
    · simp [List.lookup, beq_eq_false_iff_ne.mpr hne]

/-- Closed witness for C7 at a completed A job, a failed B job and a
registry lookup under a different id. -/
theorem C7_status_monotone_forward_only_witness :
    (jobADone.status = Status.completed ∨ jobADone.status = Status.failed) ∧
    (jobBDone.status = Status.completed ∨ jobBDone.status = Status.failed) ∧
    ("other" : String) ≠ "job-1" ∧
    chainOk (jobADone.status ::
      (executeA cfgSimFix wOk 1 (some jobADone)).trace.map JobA.status) =
      true ∧
    (executeA cfgSimFix wOk 1 (some jobADone)).job = some jobADone ∧
    (executeB envSimFix wOk 1 (some jobBDone)).job = some jobBDone ∧
    ((submitA "job-1" 1 [] bodyOk).2).lookup "other" =
      ([] : List (String × JobA)).lookup "other" := by
  have h := C7_status_monotone_forward_only cfgSimFix wOk 1 jobADone
    envSimFix wOk 1 jobBDone "job-1" 1 1 [] [] bodyOk "other"
  exact ⟨Or.inl (by decide), Or.inr (by decide), by decide, h.1,
    (h.2.2.1 (Or.inl (by decide))).1, (h.2.2.2.1 (Or.inr (by decide))).1,
    (h.2.2.2.2 (by decide)).1⟩

/-- C9: whatever the submitted body, the submit handlers either leave the
registry unchanged (rejection) or prepend a job whose stored `request` is
exactly the thirteen recognized fields with the body's values: its key list
is precisely `recognizedFields`, each recognized key maps to the submitted
value (`undefined` when absent), and any other key is absent from the
stored request. -/
theorem C9_request_stores_exactly_recognized_fields
    (freshId : String) (now nowB : ℕ) (jobsA : List (String × JobA))
    (jobsB : List (String × JobB)) (body : List (String × JsVal))
    (k : String) :
    ((submitA freshId now jobsA body).2 = jobsA ∨
     (submitA freshId now jobsA body).2 =
       (freshId, createJobA freshId now (requestOf body)) :: jobsA) ∧
    ((submitB freshId nowB jobsB body).2 = jobsB ∨
     (submitB freshId nowB jobsB body).2 =
       (freshId, createJobB freshId nowB (requestOf body)) :: jobsB) ∧
    (requestOf body).map Prod.fst = recognizedFields ∧
    (k ∈ recognizedFields →
      (requestOf body).lookup k = some (getField body k)) ∧
    (k ∉ recognizedFields → (requestOf body).lookup k = none) := by
  refine ⟨?_, ?_, ?_, fun hk => ?_, fun hk => ?_⟩
  · unfold submitA
    repeat' split
    · exact Or.inl rfl
    · exact Or.inl rfl
    · exact Or.inl rfl
    · exact Or.inr rfl
  · unfold submitB
    repeat' split
    · exact Or.inl rfl
    · exact Or.inl rfl
    · exact Or.inl rfl
    · exact Or.inr rfl
  · simp [requestOf, recognizedFields]
  · simp only [recognizedFields, List.mem_cons, List.not_mem_nil,
      or_false] at hk
    rcases hk with h | h | h | h | h | h | h | h | h | h | h | h | h <;>
      subst h <;> simp [requestOf, recognizedFields, List.lookup]
  · simp only [recognizedFields, List.mem_cons, List.not_mem_nil, or_false,
      not_or] at hk
    obtain ⟨h1, h2, h3, h4, h5, h6, h7, h8, h9, h10, h11, h12, h13⟩ := hk
    simp [requestOf, recognizedFields, List.lookup,
      beq_eq_false_iff_ne.mpr h1, beq_eq_false_iff_ne.mpr h2,
      beq_eq_false_iff_ne.mpr h3, beq_eq_false_iff_ne.mpr h4,
      beq_eq_false_iff_ne.mpr h5, beq_eq_false_iff_ne.mpr h6,
      beq_eq_false_iff_ne.mpr h7, beq_eq_false_iff_ne.mpr h8,
      beq_eq_false_iff_ne.mpr h9, beq_eq_false_iff_ne.mpr h10,
      beq_eq_false_iff_ne.mpr h11, beq_eq_false_iff_ne.mpr h12,
      beq_eq_false_iff_ne.mpr h13]

/-- Closed witness for C9: the recognized key "amount" is stored with the
submitted value and the unrecognized key "extra" is dropped. -/
theorem C9_request_stores_exactly_recognized_fields_witness :
    ("amount" ∈ recognizedFields ∧
      (requestOf [("amount", JsVal.str "1"), ("extra", JsVal.str "x")]).lookup
        "amount" = some (JsVal.str "1")) ∧
    ("extra" ∉ recognizedFields ∧
      (requestOf [("amount", JsVal.str "1"), ("extra", JsVal.str "x")]).lookup
        "extra" = none) := by
  have h := C9_request_stores_exactly_recognized_fields "job-1" 0 0 [] []
    [("amount", JsVal.str "1"), ("extra", JsVal.str "x")]
  refine ⟨⟨by decide, ?_⟩, ⟨by decide, ?_⟩⟩
  · have := (h "amount").2.2.2.1 (by decide)
    simpa using this
  · exact (h "extra").2.2.2.2 (by decide)

end ZkChan
